import Mathlib

/-!
Verification of the model-scan lifecycle of the `aidefense` Python SDK
(`src/aidefense/modelscan/model_scan.py`, `src/aidefense/modelscan/config.py`,
`src/aidefense/runtime/auth.py`).

The stateful orchestrator `ModelScan.scan` is embedded as a function of an
explicit environment (`Env`) describing what each collaborator call returns;
its observable behaviour is the chronological list of collaborator calls
(`Event`) together with the final outcome (a result or a raised exception,
with Python's implicit exception chaining modelled by `PyExc.context`).
Time (`sleep` between polls) is not modelled; only the order and number of
calls matter.
-/

namespace AIDefense

/-- Substring search on character lists: does `hay` contain `needle` as a
contiguous infix? Auxiliary for `pyInStr`. -/
def sublistSearch (needle : List Char) : List Char → Bool
  | [] => needle.isEmpty
  | c :: t => needle.isPrefixOf (c :: t) || sublistSearch needle t

/-- Python's `needle in hay` for strings: substring containment
(the empty needle is contained in every string). -/
def pyInStr (needle hay : String) : Bool :=
  sublistSearch needle.data hay.data

/-- The `ScanStatus` str-enum of `model_scan.py` (lines 30-50). -/
inductive ScanStatus
  | NONE_SCAN_STATUS
  | PENDING
  | IN_PROGRESS
  | COMPLETED
  | FAILED
  | CANCELED
deriving DecidableEq, Repr

/-- The underlying string of each `ScanStatus` member (`ScanStatus` is a
`str` subclass, so comparisons and containment use these strings). -/
def ScanStatus.value : ScanStatus → String
  | .NONE_SCAN_STATUS => "NONE_SCAN_STATUS"
  | .PENDING => "PENDING"
  | .IN_PROGRESS => "IN_PROGRESS"
  | .COMPLETED => "COMPLETED"
  | .FAILED => "FAILED"
  | .CANCELED => "CANCELED"

/-- `END_SCAN_STATUS = [ScanStatus.COMPLETED, ScanStatus.FAILED,
ScanStatus.CANCELED]` (model_scan.py line 52), as the strings a JSON status
is compared against. -/
def END_SCAN_STATUS : List String :=
  [ScanStatus.COMPLETED.value, ScanStatus.FAILED.value, ScanStatus.CANCELED.value]

/-- `RETRY_COUNT_FOR_SCANNING = 30` (model_scan.py line 27). -/
def RETRY_COUNT_FOR_SCANNING : Nat := 30

/-- `WAIT_TIME_SECS_SUCCESSIVE_SCAN_INFO_CHECK = 2` (model_scan.py line 28);
recorded for fidelity, the sleep itself is not modelled. -/
def WAIT_TIME_SECS_SUCCESSIVE_SCAN_INFO_CHECK : Nat := 2

/-- Kinds of Python exception values that occur in the embedded code.
`scanTimeout` models the `raise Exception("Scan timed out")` of
`__get_scan_info_wait_until_status` (the spec's `ScanTimeoutError`);
`unknownUrlType url` models the
`raise ValueError("Unknown url type for url: " + url)` of
`RepoConfig.url_type` (the spec's `UnknownRepositoryError`);
`typeError` models call-binding failures; `valueError` other `ValueError`s;
`err tag` is an arbitrary exception raised by a collaborator call. -/
inductive ExcKind
  | scanTimeout
  | unknownUrlType (url : String)
  | typeError (msg : String)
  | valueError (msg : String)
  | err (tag : String)
deriving DecidableEq, Repr

/-- A propagating Python exception: its kind together with the implicitly
chained exception (`__context__`), set when the exception is raised while
another exception is being handled (inside an `except` block). -/
structure PyExc where
  kind : ExcKind
  context : Option ExcKind := none
deriving DecidableEq, Repr

/-- The observable part of a `get_scan` response dictionary: its Python
truthiness and the value of `info.get("scan_status_info", {}).get("status")`
(`none` when the key chain is absent). -/
structure ScanInfo where
  truthy : Bool := true
  status : Option String := none
deriving DecidableEq, Repr

/-- The `status` argument of `__get_scan_info_wait_until_status`: the code
passes either a list of statuses (`END_SCAN_STATUS`) or — in the cleanup
path — the single str-enum member `ScanStatus.CANCELED`. -/
inductive StatusArg
  | list (l : List String)
  | single (s : String)
deriving DecidableEq, Repr

/-- Python's `x in status` inside the wait helper, where `x` is the looked-up
status (`none` when missing). Membership in a list uses equality; membership
in a string is substring containment; `None in <string>` raises `TypeError`. -/
def pyIn : Option String → StatusArg → Except ExcKind Bool
  | some x, .list l => .ok (l.contains x)
  | none, .list _ => .ok false
  | some x, .single t => .ok (pyInStr x t)
  | none, .single _ => .error (.typeError "in string requires string as left operand")

/-- The guard `info and info.get("scan_status_info", {}).get("status") in status`
of the wait helper: short-circuits on a falsy `info`. -/
def checkOf (info : ScanInfo) (arg : StatusArg) : Except ExcKind Bool :=
  if info.truthy then pyIn info.status arg else .ok false

/-- One collaborator call made by `ModelScan.scan` (in chronological order):
`register_scan`, `upload_file` (collapsed to one step), `trigger_scan`,
`get_scan`, `cancel_scan`, `delete_scan`. -/
inductive Event
  | register
  | upload
  | trigger
  | getScan
  | cancel
  | delete
deriving DecidableEq, Repr

/-- The environment of one `scan()` execution: what each collaborator call
returns (or raises). `get_scan` is indexed by a global call counter, so the
cleanup poll observes the server strictly after the main poll. -/
structure Env where
  register : Except ExcKind String
  upload : Except ExcKind Bool
  trigger : Except ExcKind Unit
  getScan : Nat → Except ExcKind ScanInfo
  cancel : Except ExcKind Unit
  delete : Except ExcKind Unit

/-- The loop body of `__get_scan_info_wait_until_status` (model_scan.py
lines 462-469), with the remaining retry budget as first `Nat` argument and
the global `get_scan` call counter as the second. Returns the `get_scan`
events emitted, the new call counter, and the result: the first info whose
status matches, or the exception propagating out of the loop, or
`Exception("Scan timed out")` when the budget is exhausted. -/
def waitUntilStatus (env : Env) (arg : StatusArg) :
    Nat → Nat → List Event × Nat × Except ExcKind ScanInfo
  | 0, idx => ([], idx, .error .scanTimeout)
  | n + 1, idx =>
    match env.getScan idx with
    | .error e => ([.getScan], idx + 1, .error e)
    | .ok info =>
      match checkOf info arg with
      | .error e => ([.getScan], idx + 1, .error e)
      | .ok true => ([.getScan], idx + 1, .ok info)
      | .ok false =>
        let r := waitUntilStatus env arg n (idx + 1)
        (Event.getScan :: r.1, r.2.1, r.2.2)

/-- `self.__get_scan_info_wait_until_status(scan_id, status)`: the loop run
with the full `RETRY_COUNT_FOR_SCANNING` budget. -/
def getScanInfoWaitUntilStatus (env : Env) (arg : StatusArg) (idx : Nat) :
    List Event × Nat × Except ExcKind ScanInfo :=
  waitUntilStatus env arg RETRY_COUNT_FOR_SCANNING idx

/-- The status argument the cleanup path passes to the wait helper:
`ScanStatus.CANCELED` itself (a str-enum member, NOT a list), so the
helper's `in` test becomes substring containment in `"CANCELED"`. -/
def cleanupStatusArg : StatusArg :=
  .single ScanStatus.CANCELED.value

/-- The `try` suite of `ModelScan.scan` (model_scan.py lines 529-532):
`upload_file`, then `trigger_scan`, then the main poll against
`END_SCAN_STATUS`. Returns the events emitted, the number of `get_scan`
calls made, and the result or the exception entering the `except` block. -/
def tryBlock (env : Env) : List Event × Nat × Except ExcKind ScanInfo :=
  match env.upload with
  | .error e => ([.upload], 0, .error e)
  | .ok _ =>
    match env.trigger with
    | .error e => ([.upload, .trigger], 0, .error e)
    | .ok _ =>
      let w := waitUntilStatus env (.list END_SCAN_STATUS) RETRY_COUNT_FOR_SCANNING 0
      ([.upload, .trigger] ++ w.1, w.2.1, w.2.2)

/-- The `except` suite of `ModelScan.scan` (model_scan.py lines 533-538):
when `scan_id` is truthy, `cancel_scan`, then the cleanup poll waiting for
`ScanStatus.CANCELED`, then `delete_scan`, then `raise e`. An exception
raised by a cleanup step propagates instead, with the original exception
`e0` attached as its implicit `__context__`. -/
def exceptBlock (env : Env) (scan_id : String) (tr : List Event) (idx : Nat)
    (e0 : ExcKind) : List Event × Except PyExc ScanInfo :=
  if scan_id.isEmpty then (tr, .error ⟨e0, none⟩)
  else
    match env.cancel with
    | .error e => (tr ++ [.cancel], .error ⟨e, some e0⟩)
    | .ok _ =>
      let w := waitUntilStatus env cleanupStatusArg RETRY_COUNT_FOR_SCANNING idx
      match w.2.2 with
      | .error e => (tr ++ [.cancel] ++ w.1, .error ⟨e, some e0⟩)
      | .ok _ =>
        match env.delete with
        | .error e => (tr ++ [.cancel] ++ w.1 ++ [.delete], .error ⟨e, some e0⟩)
        | .ok _ => (tr ++ [.cancel] ++ w.1 ++ [.delete], .error ⟨e0, none⟩)

/-- `ModelScan.scan` (model_scan.py lines 527-540): `register_scan` outside
the `try` (a failure there propagates with nothing else run), then the
`try` suite, with the `except Exception` handler running the cleanup
protocol on any failure — including the main poll's timeout — before
re-raising. Returns the chronological call trace and the outcome. -/
def scanRun (env : Env) : List Event × Except PyExc ScanInfo :=
  match env.register with
  | .error e => ([.register], .error ⟨e, none⟩)
  | .ok scan_id =>
    match tryBlock env with
    | (tr, _, .ok info) => (Event.register :: tr, .ok info)
    | (tr, idx, .error e0) =>
      let r := exceptBlock env scan_id tr idx e0
      (Event.register :: r.1, r.2)

/-! The repository-scan configuration of `src/aidefense/modelscan/config.py`. -/

/-- The `UrlType` str-enum of config.py (lines 53-64). -/
inductive UrlType
  | HUGGING_FACE
deriving DecidableEq, Repr

/-- `URL_TYPE_TO_CONFIG_NAME` (config.py lines 66-68). -/
def URL_TYPE_TO_CONFIG_NAME : UrlType → String
  | .HUGGING_FACE => "huggingface"

/-- The closed set of `BaseRepoAuth` implementations in config.py: only
`HuggingfaceRepoAuth(token)` (lines 107-149) exists. -/
inductive BaseRepoAuth
  | huggingface (token : String)
deriving DecidableEq, Repr

/-- `HuggingfaceRepoAuth.to_dict` (config.py lines 134-149):
`{"access_token": self.token}`. -/
def BaseRepoAuth.to_dict : BaseRepoAuth → List (String × String)
  | .huggingface t => [("access_token", t)]

/-- The `RepoConfig` dataclass (config.py lines 151-193). -/
structure RepoConfig where
  url : String
  auth : Option BaseRepoAuth := none
deriving DecidableEq, Repr

/-- `RepoConfig.url_type` (config.py lines 195-215): returns
`UrlType.HUGGING_FACE` when `"huggingface.co" in self.url`, otherwise
raises `ValueError("Unknown url type for url: ...")`. -/
def RepoConfig.url_type (cfg : RepoConfig) : Except ExcKind UrlType :=
  if pyInStr "huggingface.co" cfg.url then .ok UrlType.HUGGING_FACE
  else .error (.unknownUrlType cfg.url)

/-- `RepoConfig.config` (config.py lines 217-251): `{}` when `self.auth` is
absent, else `{URL_TYPE_TO_CONFIG_NAME[self.url_type]: self.auth.to_dict}`
(note the `url_type` lookup can itself raise). -/
def RepoConfig.config (cfg : RepoConfig) :
    Except ExcKind (List (String × List (String × String))) :=
  match cfg.auth with
  | none => .ok []
  | some a =>
    match cfg.url_type with
    | .error e => .error e
    | .ok ut => .ok [(URL_TYPE_TO_CONFIG_NAME ut, a.to_dict)]

/-! The `RuntimeAuth` constructor of `src/aidefense/runtime/auth.py` and the
Python call-binding step that precedes it. -/

/-- Python's binding of a call's arguments to a function's declared
parameters (no defaults, no varargs — exact for `RuntimeAuth.__init__`):
the call raises `TypeError` before the body runs when a keyword argument
matches no declared parameter, when there are too many positional
arguments, when a keyword repeats a positionally-bound parameter, or when a
parameter stays unbound. Returns the `TypeError` message, or `none` when
binding succeeds. -/
def pyBindCall (params : List String) (nPos : Nat) (kwargs : List String) :
    Option String :=
  if params.length < nPos then some "too many positional arguments"
  else
    match kwargs.find? (fun k => !(params.contains k)) with
    | some k => some ("got an unexpected keyword argument " ++ k)
    | none =>
      if kwargs.any (fun k => (params.take nPos).contains k) then
        some "got multiple values for argument"
      else if params.any (fun p => !((params.take nPos).contains p || kwargs.contains p)) then
        some "missing a required argument"
      else none

/-- The state a successfully constructed `RuntimeAuth` holds. -/
structure RuntimeAuth where
  token : String
deriving DecidableEq, Repr

/-- The declared parameters of `RuntimeAuth.__init__` besides `self`
(auth.py line 9): only `token`. -/
def RuntimeAuth.initParams : List String := ["token"]

/-- `RuntimeAuth.validate` (auth.py lines 17-21): a `token` is always a
`str` here, so the check fails exactly on an empty token or one whose
length is not 64. -/
def RuntimeAuth.validate (token : String) : Except ExcKind Bool :=
  if token.isEmpty || token.length != 64 then
    .error (.valueError "Invalid API key format")
  else .ok true

/-- A call `RuntimeAuth(...)` with `nPos` positional arguments and the given
keyword-argument names, the positional value being `token`: Python binds
the arguments first (raising `TypeError` on failure, before any body code),
then the body stores the token and runs `validate`. -/
def RuntimeAuth.callInit (nPos : Nat) (kwargs : List String) (token : String) :
    Except ExcKind RuntimeAuth :=
  match pyBindCall RuntimeAuth.initParams nPos kwargs with
  | some msg => .error (.typeError msg)
  | none =>
    match RuntimeAuth.validate token with
    | .error e => .error e
    | .ok _ => .ok ⟨token⟩

/-- Modelled from the spec: `BaseClient.__init__` lives in
`aidefense/client.py`, which is not under src/. Per spec §1 the HTTP
transport configuration it performs is out of scope and an external
collaborator, and §6 lists no constructor-time request, so it is modelled
as pure configuration storage that neither raises nor touches the network. -/
def BaseClient.init (_config : Option Unit) : Unit := ()

/-- `ModelScan.__init__` (model_scan.py lines 80-94): `config = config or
Config()`, `super().__init__(config)`, then
`self.auth = RuntimeAuth(api_key, is_tenant_api_key=True)` — one positional
argument and the keyword argument `is_tenant_api_key`. -/
def ModelScan.init (api_key : String) (config : Option Unit) :
    Except ExcKind RuntimeAuth :=
  let _ := BaseClient.init config
  RuntimeAuth.callInit 1 ["is_tenant_api_key"] api_key

deriving instance DecidableEq for Except

/-! Concrete environments used to instantiate the claim theorems. -/

/-- An execution where every server call succeeds, the 30 main polls all
report `IN_PROGRESS`, and the first cleanup poll (the 31st `get_scan` call)
reports `CANCELED`. -/
def timeoutCleanupEnv : Env :=
  { register := .ok "sid-1", upload := .ok true, trigger := .ok ()
    getScan := fun i =>
      if i < 30 then .ok ⟨true, some "IN_PROGRESS"⟩ else .ok ⟨true, some "CANCELED"⟩
    cancel := .ok (), delete := .ok () }

/-- An execution like `timeoutCleanupEnv` but where the cancellation is
asynchronous: the first two cleanup polls (the 31st and 32nd `get_scan`
calls) still see `IN_PROGRESS` and only the third sees `CANCELED`. -/
def timeoutAsyncCancelEnv : Env :=
  { register := .ok "sid-7", upload := .ok true, trigger := .ok ()
    getScan := fun i =>
      if i < 32 then .ok ⟨true, some "IN_PROGRESS"⟩ else .ok ⟨true, some "CANCELED"⟩
    cancel := .ok (), delete := .ok () }

/-- An execution where `trigger_scan` raises and `cancel_scan` itself then
raises during cleanup. -/
def triggerThenCancelFailEnv : Env :=
  { register := .ok "sid-2", upload := .ok true, trigger := .error (.err "trigger boom")
    getScan := fun _ => .ok ⟨true, some "CANCELED"⟩
    cancel := .error (.err "cancel boom"), delete := .ok () }

/-- An execution where `trigger_scan` raises and every cleanup step
succeeds, the first cleanup poll already reporting `CANCELED`. -/
def triggerFailCleanupOkEnv : Env :=
  { register := .ok "sid-3", upload := .ok true, trigger := .error (.err "trigger boom")
    getScan := fun _ => .ok ⟨true, some "CANCELED"⟩
    cancel := .ok (), delete := .ok () }

/-- An execution whose server never leaves `IN_PROGRESS`. -/
def foreverInProgressEnv : Env :=
  { register := .ok "sid-4", upload := .ok true, trigger := .ok ()
    getScan := fun _ => .ok ⟨true, some "IN_PROGRESS"⟩
    cancel := .ok (), delete := .ok () }

/-- An execution where `trigger_scan` raises an API error and the server
then never reports `CANCELED`, so the cleanup poll exhausts its budget. -/
def cleanupNeverCanceledEnv : Env :=
  { register := .ok "sid-5", upload := .ok true, trigger := .error (.err "api 401")
    getScan := fun _ => .ok ⟨true, some "IN_PROGRESS"⟩
    cancel := .ok (), delete := .ok () }

/-- An execution whose very first poll reports the terminal status
`FAILED`. -/
def failedFirstPollEnv : Env :=
  { register := .ok "sid-6", upload := .ok true, trigger := .ok ()
    getScan := fun _ => .ok ⟨true, some "FAILED"⟩
    cancel := .ok (), delete := .ok () }

/-- An execution where `register_scan` itself raises. -/
def registerFailEnv : Env :=
  { register := .error (.err "quota"), upload := .ok true, trigger := .ok ()
    getScan := fun _ => .ok ⟨true, some "IN_PROGRESS"⟩
    cancel := .ok (), delete := .ok () }

/-! Auxiliary predicates and lemmas about the poll loop. -/

/-- Poll `i` returns normally but its status does not match `arg`. -/
def pollMisses (env : Env) (arg : StatusArg) (i : Nat) : Prop :=
  ∃ info, env.getScan i = .ok info ∧ checkOf info arg = .ok false

/-- Poll `i` returns `info`, whose status matches `arg`. -/
def pollHits (env : Env) (arg : StatusArg) (i : Nat) (info : ScanInfo) : Prop :=
  env.getScan i = .ok info ∧ checkOf info arg = .ok true

theorem waitUntilStatus_timeout (env : Env) (arg : StatusArg) :
    ∀ (n idx : Nat), (∀ i, i < n → pollMisses env arg (idx + i)) →
      waitUntilStatus env arg n idx =
        (List.replicate n .getScan, idx + n, .error .scanTimeout) := by
  intro n
  induction n with
  | zero => intro idx _; simp [waitUntilStatus]
  | succ n ih =>
    intro idx h
    obtain ⟨info, hg, hc⟩ := h 0 (Nat.succ_pos n)
    rw [Nat.add_zero] at hg
    have hrest : ∀ i, i < n → pollMisses env arg (idx + 1 + i) := by
      intro i hi
      have := h (i + 1) (by omega)
      rwa [show idx + (i + 1) = idx + 1 + i by omega] at this
    simp only [waitUntilStatus, hg, hc, ih (idx + 1) hrest]
    simp only [List.replicate_succ, Prod.mk.injEq]
    refine ⟨trivial, by omega, trivial⟩

theorem waitUntilStatus_hits (env : Env) (arg : StatusArg) :
    ∀ (n idx k : Nat) (info : ScanInfo), k < n →
      (∀ i, i < k → pollMisses env arg (idx + i)) →
      pollHits env arg (idx + k) info →
      waitUntilStatus env arg n idx =
        (List.replicate (k + 1) .getScan, idx + k + 1, .ok info) := by
  intro n
  induction n with
  | zero => intro idx k info hk; omega
  | succ n ih =>
    intro idx k info hk hmiss hhit
    cases k with
    | zero =>
      obtain ⟨hg, hc⟩ := hhit
      rw [Nat.add_zero] at hg
      simp only [waitUntilStatus, hg, hc, List.replicate, Nat.add_zero]
    | succ k =>
      obtain ⟨info0, hg, hc⟩ := hmiss 0 (Nat.succ_pos k)
      rw [Nat.add_zero] at hg
      have hrest : ∀ i, i < k → pollMisses env arg (idx + 1 + i) := by
        intro i hi
        have := hmiss (i + 1) (by omega)
        rwa [show idx + (i + 1) = idx + 1 + i by omega] at this
      have hhit2 : pollHits env arg (idx + 1 + k) info := by
        rwa [show idx + (k + 1) = idx + 1 + k by omega] at hhit
      simp only [waitUntilStatus, hg, hc, ih (idx + 1) k info (by omega) hrest hhit2]
      simp only [List.replicate_succ, Prod.mk.injEq]
      refine ⟨trivial, by omega, trivial⟩

/-! Claim theorems. -/

/-- Claim C8: if `register_scan` itself raises, `scan()` propagates that
exception immediately without performing any other operation — the call
trace is exactly `[register]`, so no upload, trigger, poll, cancel or
delete call is made, and the raised exception is the original one,
unchained. -/
theorem register_failure_propagates_immediately (env : Env) (e : ExcKind)
    (h : env.register = .error e) :
    scanRun env = ([Event.register], .error ⟨e, none⟩) := by
  simp [scanRun, h]

theorem register_failure_propagates_immediately_witness :
    scanRun registerFailEnv = ([Event.register], .error ⟨.err "quota", none⟩) :=
  register_failure_propagates_immediately registerFailEnv (.err "quota") rfl

/-- Claim C3: for every run in which each of the `RETRY_COUNT_FOR_SCANNING`
polls returns successfully with a status outside the terminal set
`END_SCAN_STATUS`, the poll loop calls `get_scan` exactly
`RETRY_COUNT_FOR_SCANNING` (30) times — the trace is `replicate 30` and the
final call counter is 30 — and then raises the scan-timeout exception. -/
theorem poll_loop_exactly_retry_count_then_timeout (env : Env)
    (h : ∀ i, i < RETRY_COUNT_FOR_SCANNING →
      ∃ info s, env.getScan i = .ok info ∧ info.truthy = true ∧
        info.status = some s ∧ s ∉ END_SCAN_STATUS) :
    getScanInfoWaitUntilStatus env (.list END_SCAN_STATUS) 0 =
      (List.replicate RETRY_COUNT_FOR_SCANNING .getScan, RETRY_COUNT_FOR_SCANNING,
        .error .scanTimeout) := by
  have hm : ∀ i, i < RETRY_COUNT_FOR_SCANNING →
      pollMisses env (.list END_SCAN_STATUS) (0 + i) := by
    intro i hi
    obtain ⟨info, s, hg, htru, hs, hnm⟩ := h i hi
    refine ⟨info, by rwa [Nat.zero_add], ?_⟩
    have hc : END_SCAN_STATUS.contains s = false := by simpa using hnm
    simp only [checkOf, htru, if_true, hs, pyIn, hc]
  have := waitUntilStatus_timeout env (.list END_SCAN_STATUS)
    RETRY_COUNT_FOR_SCANNING 0 hm
  simpa [getScanInfoWaitUntilStatus] using this

theorem poll_loop_exactly_retry_count_then_timeout_witness :
    getScanInfoWaitUntilStatus foreverInProgressEnv (.list END_SCAN_STATUS) 0 =
      (List.replicate RETRY_COUNT_FOR_SCANNING .getScan, RETRY_COUNT_FOR_SCANNING,
        .error .scanTimeout) :=
  poll_loop_exactly_retry_count_then_timeout foreverInProgressEnv
    (fun i hi => ⟨⟨true, some "IN_PROGRESS"⟩, "IN_PROGRESS", rfl, rfl, rfl, by decide⟩)

/-- Claim C5: when polls `0..k-1` return non-terminal statuses and poll `k`
(within the budget) returns a status in `END_SCAN_STATUS`, the poll loop
exits on that call — exactly `k + 1` `get_scan` calls appear in the trace,
none after it — and `scan()` returns that scan info as a normal result with
no cleanup call in the trace; a `FAILED` status is returned, not raised
(see the witness). -/
theorem poll_loop_stops_at_first_terminal (env : Env) (sid : String) (b : Bool)
    (k : Nat) (info : ScanInfo) (s : String)
    (hreg : env.register = .ok sid) (hup : env.upload = .ok b)
    (htr : env.trigger = .ok ())
    (hk : k < RETRY_COUNT_FOR_SCANNING)
    (hpre : ∀ i, i < k → ∃ info2 s2, env.getScan i = .ok info2 ∧ info2.truthy = true ∧
      info2.status = some s2 ∧ s2 ∉ END_SCAN_STATUS)
    (hg : env.getScan k = .ok info) (htru : info.truthy = true)
    (hs : info.status = some s) (hterm : s ∈ END_SCAN_STATUS) :
    scanRun env =
      ([Event.register, .upload, .trigger] ++ List.replicate (k + 1) .getScan,
        .ok info) := by
  have hchk : checkOf info (.list END_SCAN_STATUS) = .ok true := by
    have hc : END_SCAN_STATUS.contains s = true := by simpa using hterm
    simp only [checkOf, htru, if_true, hs, pyIn, hc]
  have hm : ∀ i, i < k → pollMisses env (.list END_SCAN_STATUS) (0 + i) := by
    intro i hi
    obtain ⟨info2, s2, hg2, htru2, hs2, hnm2⟩ := hpre i hi
    refine ⟨info2, by rwa [Nat.zero_add], ?_⟩
    have hc2 : END_SCAN_STATUS.contains s2 = false := by simpa using hnm2
    simp only [checkOf, htru2, if_true, hs2, pyIn, hc2]
  have hmain := waitUntilStatus_hits env (.list END_SCAN_STATUS)
    RETRY_COUNT_FOR_SCANNING 0 k info hk hm ⟨by rwa [Nat.zero_add], hchk⟩
  simp [scanRun, tryBlock, hreg, hup, htr, hmain]

theorem poll_loop_stops_at_first_terminal_witness :
    scanRun failedFirstPollEnv =
      ([Event.register, .upload, .trigger] ++ List.replicate 1 .getScan,
        .ok ⟨true, some "FAILED"⟩) :=
  poll_loop_stops_at_first_terminal failedFirstPollEnv "sid-6" true 0
    ⟨true, some "FAILED"⟩ "FAILED" rfl rfl rfl (by decide)
    (fun i hi => absurd hi (Nat.not_lt_zero i)) rfl rfl rfl (by decide)

/-- Claim C4: whatever exception `e0` enters the `except` block, after a
successful `cancel_scan` the cleanup poll waits for `cleanupStatusArg`
(status `CANCELED`) via the same bounded-retry loop; when all
`RETRY_COUNT_FOR_SCANNING` cleanup polls miss, the exception surfaced to the
caller is the scan-timeout exception with the original failure `e0` attached
as its implicit `__context__` — chained to, not masking, the original. -/
theorem cleanup_poll_timeout_chains_original (env : Env) (sid : String)
    (tr : List Event) (idx : Nat) (e0 : ExcKind)
    (hreg : env.register = .ok sid) (hsid : sid.isEmpty = false)
    (htry : tryBlock env = (tr, idx, .error e0))
    (hcancel : env.cancel = .ok ())
    (hpolls : ∀ i, i < RETRY_COUNT_FOR_SCANNING →
      pollMisses env cleanupStatusArg (idx + i)) :
    scanRun env =
      (Event.register :: tr ++ [.cancel]
          ++ List.replicate RETRY_COUNT_FOR_SCANNING .getScan,
        .error ⟨.scanTimeout, some e0⟩) := by
  have hw := waitUntilStatus_timeout env cleanupStatusArg
    RETRY_COUNT_FOR_SCANNING idx hpolls
  simp [scanRun, hreg, htry, exceptBlock, hsid, hcancel, hw]

theorem cleanup_poll_timeout_chains_original_witness :
    scanRun cleanupNeverCanceledEnv =
      (Event.register :: [.upload, .trigger] ++ [.cancel]
          ++ List.replicate RETRY_COUNT_FOR_SCANNING .getScan,
        .error ⟨.scanTimeout, some (.err "api 401")⟩) :=
  cleanup_poll_timeout_chains_original cleanupNeverCanceledEnv "sid-5"
    [.upload, .trigger] 0 (.err "api 401") rfl rfl rfl rfl
    (fun i hi => ⟨⟨true, some "IN_PROGRESS"⟩, rfl, by decide⟩)

/-- Claim C1, counterexample: in `timeoutCleanupEnv` register, upload and
trigger all succeed and every one of the 30 main polls returns
`IN_PROGRESS`, yet `cancel_scan` AND `delete_scan` do appear in the call
trace before the timeout exception propagates — the `except Exception`
handler of `scan()` catches the main poll's timeout and runs the cleanup
protocol, so the claim's "no cleanup is attempted" is false. -/
theorem scan_timeout_no_cleanup_counterexample :
    timeoutCleanupEnv.register = .ok "sid-1"
    ∧ timeoutCleanupEnv.upload = .ok true
    ∧ timeoutCleanupEnv.trigger = .ok ()
    ∧ (∀ i, i < 30 → timeoutCleanupEnv.getScan i = .ok ⟨true, some "IN_PROGRESS"⟩)
    ∧ (scanRun timeoutCleanupEnv).2 = .error ⟨.scanTimeout, none⟩
    ∧ Event.cancel ∈ (scanRun timeoutCleanupEnv).1
    ∧ Event.delete ∈ (scanRun timeoutCleanupEnv).1 := by
  decide

/-- Claim C1, amended: if register, upload and trigger all succeed and every
one of the 30 polls returns `IN_PROGRESS`, then `scan()` raises the
scan-timeout exception, but cleanup IS attempted first: `cancel_scan` is
called and — once SOME cleanup poll within the fresh 30-poll retry budget
observes `CANCELED` (the hit may come at any attempt `k`, cancellation
being asynchronous) and `delete_scan` succeeds — `delete_scan` is called on
the scan id before the original timeout propagates (unchained, since
`raise e` re-raises the caught exception). -/
theorem scan_timeout_runs_cleanup (env : Env) (sid : String) (b : Bool)
    (k : Nat) (info : ScanInfo)
    (hreg : env.register = .ok sid) (hsid : sid.isEmpty = false)
    (hup : env.upload = .ok b) (htr : env.trigger = .ok ())
    (hpolls : ∀ i, i < RETRY_COUNT_FOR_SCANNING →
      env.getScan i = .ok ⟨true, some ScanStatus.IN_PROGRESS.value⟩)
    (hcancel : env.cancel = .ok ())
    (hk : k < RETRY_COUNT_FOR_SCANNING)
    (hpre : ∀ i, i < k →
      pollMisses env cleanupStatusArg (RETRY_COUNT_FOR_SCANNING + i))
    (hhit : pollHits env cleanupStatusArg (RETRY_COUNT_FOR_SCANNING + k) info)
    (hdel : env.delete = .ok ()) :
    scanRun env =
      ([Event.register, .upload, .trigger]
          ++ List.replicate RETRY_COUNT_FOR_SCANNING .getScan
          ++ [.cancel] ++ List.replicate (k + 1) .getScan ++ [.delete],
        .error ⟨.scanTimeout, none⟩) := by
  have hmain := waitUntilStatus_timeout env (.list END_SCAN_STATUS)
    RETRY_COUNT_FOR_SCANNING 0
    (fun i hi => ⟨⟨true, some ScanStatus.IN_PROGRESS.value⟩,
      by rw [Nat.zero_add]; exact hpolls i hi, by decide⟩)
  have hclean := waitUntilStatus_hits env cleanupStatusArg
    RETRY_COUNT_FOR_SCANNING RETRY_COUNT_FOR_SCANNING k info hk hpre hhit
  simp [scanRun, tryBlock, hreg, hup, htr, hmain, exceptBlock, hsid, hcancel,
    hclean, hdel]

theorem scan_timeout_runs_cleanup_witness :
    scanRun timeoutAsyncCancelEnv =
      ([Event.register, .upload, .trigger]
          ++ List.replicate RETRY_COUNT_FOR_SCANNING .getScan
          ++ [.cancel] ++ List.replicate 3 .getScan ++ [.delete],
        .error ⟨.scanTimeout, none⟩) :=
  scan_timeout_runs_cleanup timeoutAsyncCancelEnv "sid-7" true 2
    ⟨true, some "CANCELED"⟩ rfl rfl rfl rfl
    (fun i hi => by
      have h32 : i < 32 := by
        have h30 : i < 30 := by simpa [RETRY_COUNT_FOR_SCANNING] using hi
        omega
      simp [timeoutAsyncCancelEnv, h32, ScanStatus.value])
    rfl (by decide)
    (fun i hi => ⟨⟨true, some "IN_PROGRESS"⟩, by
      have h32 : RETRY_COUNT_FOR_SCANNING + i < 32 := by
        simp only [RETRY_COUNT_FOR_SCANNING]
        omega
      simp [timeoutAsyncCancelEnv, h32], by decide⟩)
    ⟨by decide, by decide⟩ rfl

/-- Claim C2, counterexample: `triggerThenCancelFailEnv` is an execution in
which `trigger_scan` raises after `register_scan` and `upload_file`
succeeded, yet `delete_scan` is never called and the exception propagated
to the caller is `cancel_scan`'s own failure (with the original only as
`__context__`), not the original exception — so the claim's universal
"calls cancel then delete ... before propagating the original exception"
is false. -/
theorem trigger_failure_cleanup_counterexample :
    triggerThenCancelFailEnv.register = .ok "sid-2"
    ∧ triggerThenCancelFailEnv.upload = .ok true
    ∧ triggerThenCancelFailEnv.trigger = .error (.err "trigger boom")
    ∧ (scanRun triggerThenCancelFailEnv).1 =
        [Event.register, .upload, .trigger, .cancel]
    ∧ Event.delete ∉ (scanRun triggerThenCancelFailEnv).1
    ∧ (scanRun triggerThenCancelFailEnv).2 =
        .error ⟨.err "cancel boom", some (.err "trigger boom")⟩ := by
  decide

/-- Claim C2, amended: for every execution in which `trigger_scan` raises
`e0` after successful `register_scan` and `upload_file`, PROVIDED the
cleanup steps themselves succeed (`cancel_scan` returns, some cleanup poll
within the budget observes `CANCELED`, and `delete_scan` returns), the
orchestrator calls `cancel_scan` and then `delete_scan` on that scan id, in
that order, before propagating the original exception `e0` to the caller. -/
theorem trigger_failure_cleanup_cancel_then_delete (env : Env) (sid : String)
    (b : Bool) (e0 : ExcKind) (k : Nat) (info : ScanInfo)
    (hreg : env.register = .ok sid) (hsid : sid.isEmpty = false)
    (hup : env.upload = .ok b) (htr : env.trigger = .error e0)
    (hcancel : env.cancel = .ok ())
    (hk : k < RETRY_COUNT_FOR_SCANNING)
    (hpre : ∀ i, i < k → pollMisses env cleanupStatusArg i)
    (hhit : pollHits env cleanupStatusArg k info)
    (hdel : env.delete = .ok ()) :
    scanRun env =
      ([Event.register, .upload, .trigger, .cancel]
          ++ List.replicate (k + 1) .getScan ++ [.delete],
        .error ⟨e0, none⟩) := by
  have hclean := waitUntilStatus_hits env cleanupStatusArg
    RETRY_COUNT_FOR_SCANNING 0 k info hk
    (fun i hi => by rw [Nat.zero_add]; exact hpre i hi)
    (by rwa [Nat.zero_add])
  simp [scanRun, tryBlock, hreg, hup, htr, exceptBlock, hsid, hcancel, hclean,
    hdel]

theorem trigger_failure_cleanup_cancel_then_delete_witness :
    scanRun triggerFailCleanupOkEnv =
      ([Event.register, .upload, .trigger, .cancel]
          ++ List.replicate 1 .getScan ++ [.delete],
        .error ⟨.err "trigger boom", none⟩) :=
  trigger_failure_cleanup_cancel_then_delete triggerFailCleanupOkEnv "sid-3"
    true (.err "trigger boom") 0 ⟨true, some "CANCELED"⟩ rfl rfl rfl rfl rfl
    (by decide) (fun i hi => absurd hi (Nat.not_lt_zero i)) ⟨rfl, by decide⟩
    rfl

/-- Claim C6: for every URL string (and any auth), `RepoConfig.url_type`
returns the HuggingFace platform type exactly when the URL contains the
marker `"huggingface.co"`, and raises the unknown-repository error (the
source's `ValueError("Unknown url type for url: ...")`) when the URL
contains no known marker. -/
theorem url_type_resolution (url : String) (auth : Option BaseRepoAuth) :
    (RepoConfig.url_type ⟨url, auth⟩ = .ok UrlType.HUGGING_FACE ↔
      pyInStr "huggingface.co" url = true)
    ∧ (pyInStr "huggingface.co" url = false →
      RepoConfig.url_type ⟨url, auth⟩ = .error (.unknownUrlType url)) := by
  cases h : pyInStr "huggingface.co" url <;> simp [RepoConfig.url_type, h]

theorem url_type_resolution_witness :
    RepoConfig.url_type ⟨"https://huggingface.co/org/model", none⟩ =
      .ok UrlType.HUGGING_FACE
    ∧ RepoConfig.url_type ⟨"https://example.org/models", none⟩ =
      .error (.unknownUrlType "https://example.org/models") :=
  ⟨(url_type_resolution "https://huggingface.co/org/model" none).1.mpr (by decide),
    (url_type_resolution "https://example.org/models" none).2 (by decide)⟩

/-- Claim C7: building the credential payload with no auth present returns
the empty map (for every URL — the `not self.auth` test short-circuits
before the URL is inspected), and with a HuggingFace auth holding token `t`
on a HuggingFace URL returns exactly
`{"huggingface": {"access_token": t}}`. -/
theorem credential_payload_shape (url t : String) :
    (RepoConfig.config ⟨url, none⟩ = .ok [])
    ∧ (pyInStr "huggingface.co" url = true →
      RepoConfig.config ⟨url, some (.huggingface t)⟩ =
        .ok [("huggingface", [("access_token", t)])]) := by
  refine ⟨rfl, fun h => ?_⟩
  simp [RepoConfig.config, RepoConfig.url_type, h, URL_TYPE_TO_CONFIG_NAME,
    BaseRepoAuth.to_dict]

theorem credential_payload_shape_witness :
    RepoConfig.config ⟨"https://huggingface.co/org/model", none⟩ = .ok []
    ∧ RepoConfig.config
        ⟨"https://huggingface.co/org/model", some (.huggingface "hf_tok")⟩ =
      .ok [("huggingface", [("access_token", "hf_tok")])] :=
  ⟨(credential_payload_shape "https://huggingface.co/org/model" "hf_tok").1,
    (credential_payload_shape "https://huggingface.co/org/model" "hf_tok").2
      (by decide)⟩

/-- Claim C9: for every api_key string and every config, constructing the
ModelScan client fails with a `TypeError` at the `RuntimeAuth(api_key,
is_tenant_api_key=True)` call — `RuntimeAuth.__init__` declares only
`token`, so Python's argument binding rejects the keyword
`is_tenant_api_key` before the constructor body (and hence before
`validate`, the key-format check) runs; the same `TypeError` results for
valid and invalid keys alike, and no network call is modelled anywhere on
this path. -/
theorem modelscan_init_raises_type_error (api_key : String) (config : Option Unit) :
    ModelScan.init api_key config =
      .error (.typeError "got an unexpected keyword argument is_tenant_api_key") :=
  rfl

/-- Claim C10: the cleanup path hands the wait helper the single str-enum
value `ScanStatus.CANCELED` (`cleanupStatusArg`, used by `exceptBlock`), so
the helper's membership test is substring containment in the string
`"CANCELED"` — and since no other `ScanStatus` value is a substring of
`"CANCELED"`, the test accepts exactly the status `CANCELED` among the six
scan statuses. -/
theorem cleanup_status_membership_exactly_canceled :
    cleanupStatusArg = .single ScanStatus.CANCELED.value
    ∧ (∀ s : String, pyIn (some s) cleanupStatusArg =
        .ok (pyInStr s ScanStatus.CANCELED.value))
    ∧ (∀ st : ScanStatus, pyIn (some st.value) cleanupStatusArg =
        .ok (decide (st = ScanStatus.CANCELED))) :=
  ⟨rfl, fun _ => rfl, fun st => by cases st <;> rfl⟩

end AIDefense
